import Mathlib

/-
Verification development for the SmoothOperator repository: the agent-handoff
orchestration runtime (modelled from the specification, since the backend
Python sources api/app/agents/orchestrator.py and api/app/mcp/note_server.py
are not part of the available source tree) and the web frontend
(web/src/App.tsx, web/src/hooks/useAuth.ts, web/src/pages/ChatPage.tsx),
which is embedded directly from the TypeScript source.
-/

/-! ## Session note store and Tool Registry -/

/-- Modelled from the spec: the per-session note store of
api/app/mcp/note_server.py (missing from the source tree), a title-to-content
mapping kept in insertion order ("mapping from note title (string, unique key)
to note content (string)", listed by `list_titles` in insertion order). -/
def NoteStore : Type := List (String × String)

instance : DecidableEq NoteStore := by
  unfold NoteStore
  infer_instance

/-- Modelled from the spec: upsert of a title-to-content pair — an existing
title is overwritten in place (no duplicate title, position preserved), a new
title is appended at the end (insertion order). -/
def upsert (store : NoteStore) (t c : String) : NoteStore :=
  match store with
  | [] => [(t, c)]
  | (t', c') :: rest => if t' == t then (t, c) :: rest else (t', c') :: upsert rest t c

/-- Modelled from the spec: `save_note(title, content)` upserts title→content
in the session's store (api/app/mcp/note_server.py is missing from the source
tree). -/
def save_note (store : NoteStore) (title content : String) : NoteStore :=
  upsert store title content

/-- Modelled from the spec: `get_note(title)` looks the title up in this
session's store (api/app/mcp/note_server.py is missing from the source
tree). -/
def get_note (store : NoteStore) (title : String) : Option String :=
  List.lookup title store

/-- Modelled from the spec: `list_titles()` returns the ordered sequence of
all titles currently stored for this session, in insertion order
(api/app/mcp/note_server.py is missing from the source tree). -/
def list_titles (store : NoteStore) : List String :=
  store.map Prod.fst

/-- Tool-level failure taxonomy of the Tool Registry contract:
`ValidationError` for bad arguments, `NotFoundError` for a lookup miss. -/
inductive ToolError where
  | validationError (msg : String)
  | notFoundError (msg : String)
deriving DecidableEq

/-- Successful results of the three data tools. -/
inductive ToolResult where
  | saved
  | note (content : String)
  | titles (ts : List String)
deriving DecidableEq

/-- Named string-valued arguments of a tool call. -/
abbrev ToolArgs := List (String × String)

/-- Modelled from the spec: the Tool Registry contract
`invoke(session_id, tool_name, arguments) → result | ValidationError |
NotFoundError` of api/app/mcp/note_server.py (missing from the source tree).
The session's store is passed in and the (possibly updated) store is returned
alongside the outcome; argument validation happens before any mutation. -/
def invoke (store : NoteStore) (tool : String) (args : ToolArgs) :
    Except ToolError ToolResult × NoteStore :=
  if tool = "save_note" then
    match args.lookup "title", args.lookup "content" with
    | some t, some c => (Except.ok ToolResult.saved, save_note store t c)
    | _, _ => (Except.error (ToolError.validationError "save_note requires title and content"), store)
  else if tool = "get_note" then
    match args.lookup "title" with
    | some t =>
      match get_note store t with
      | some c => (Except.ok (ToolResult.note c), store)
      | none => (Except.error (ToolError.notFoundError ("no note titled " ++ t)), store)
    | none => (Except.error (ToolError.validationError "get_note requires title"), store)
  else if tool = "list_titles" then
    (Except.ok (ToolResult.titles (list_titles store)), store)
  else
    (Except.error (ToolError.validationError ("unknown tool " ++ tool)), store)

/-! ### Store lemmas -/

lemma lookup_upsert (store : NoteStore) (t c : String) :
    List.lookup t (upsert store t c) = some c := by
  induction store with
  | nil => simp [upsert, List.lookup]
  | cons hd tl ih =>
    obtain ⟨t', c'⟩ := hd
    by_cases h : t' = t
    · simp [upsert, h, List.lookup]
    · have hb : (t' == t) = false := beq_false_of_ne h
      have hb' : (t == t') = false := beq_false_of_ne (Ne.symm h)
      simp [upsert, hb, List.lookup, hb', ih]

/-! ### Claims about the Tool Registry -/

/-- Claim C3: saving a note and reading it back in the same session returns
the saved content (round-trip law), and `get_note` on an absent title fails
with `NotFoundError`. -/
theorem c3_save_get_roundtrip :
    (∀ (store : NoteStore) (t c : String),
      (invoke (invoke store "save_note" [("title", t), ("content", c)]).2
        "get_note" [("title", t)]).1 = Except.ok (ToolResult.note c)) ∧
    (∀ (store : NoteStore) (t : String), List.lookup t store = none →
      (invoke store "get_note" [("title", t)]).1
        = Except.error (ToolError.notFoundError ("no note titled " ++ t))) := by
  constructor
  · intro store t c
    simp [invoke, List.lookup, get_note, save_note, lookup_upsert]
  · intro store t h
    simp [invoke, List.lookup, get_note, h]

/-- Witness for C3: a concrete round trip on the empty store, and a concrete
`NotFoundError` on the empty store. -/
theorem c3_save_get_roundtrip_witness :
    (invoke (invoke [] "save_note" [("title", "t"), ("content", "c")]).2
      "get_note" [("title", "t")]).1 = Except.ok (ToolResult.note "c") ∧
    (invoke [] "get_note" [("title", "t")]).1
      = Except.error (ToolError.notFoundError ("no note titled " ++ "t")) :=
  ⟨c3_save_get_roundtrip.1 [] "t" "c",
   c3_save_get_roundtrip.2 [] "t" (by decide)⟩

/-- Claim C5: starting from the empty store, saving "a" then "b" makes
`list_titles` return exactly ["a", "b"] in insertion order; saving "a" again
with new content does not duplicate the title; `list_titles` on the empty
store is empty. -/
theorem c5_list_titles_insertion_order (x y z : String) :
    list_titles (save_note (save_note [] "a" x) "b" y) = ["a", "b"] ∧
    list_titles (save_note (save_note (save_note [] "a" x) "b" y) "a" z) = ["a", "b"] ∧
    list_titles ([] : NoteStore) = [] := by
  refine ⟨rfl, rfl, rfl⟩

/-- Claim C7: every Tool Registry invocation either fully succeeds or leaves
the session's note store unchanged — in particular every validation failure
leaves the store unchanged, since validation precedes any mutation. -/
theorem c7_invoke_atomic (store : NoteStore) (tool : String) (args : ToolArgs) :
    (∃ r, (invoke store tool args).1 = Except.ok r) ∨
    (invoke store tool args).2 = store := by
  unfold invoke
  by_cases h1 : tool = "save_note"
  · simp only [h1, if_pos rfl]
    match hx : List.lookup "title" args, hy : List.lookup "content" args with
    | some t, some c => exact Or.inl ⟨ToolResult.saved, by simp [hx, hy]⟩
    | some t, none => exact Or.inr (by simp [hx, hy])
    | none, some c => exact Or.inr (by simp [hx, hy])
    | none, none => exact Or.inr (by simp [hx, hy])
  · simp only [if_neg h1]
    by_cases h2 : tool = "get_note"
    · simp only [h2, if_pos rfl]
      match hx : List.lookup "title" args with
      | some t =>
        match hg : get_note store t with
        | some c => exact Or.inl ⟨ToolResult.note c, by simp [hx, hg]⟩
        | none => exact Or.inr (by simp [hx, hg])
      | none => exact Or.inr (by simp [hx])
    · simp only [if_neg h2]
      by_cases h3 : tool = "list_titles"
      · exact Or.inl ⟨ToolResult.titles (list_titles store), by simp [h3]⟩
      · exact Or.inr (by simp [h3])

/-! ## Agent definitions and the Turn Orchestrator -/

/-- Modelled from the spec: an immutable agent record of
api/app/agents/orchestrator.py (missing from the source tree): a name, a
system instruction string, and the ordered list of tool names the agent may
call. -/
structure AgentDefinition where
  name : String
  instructions : String
  tools : List String
deriving DecidableEq

/-- Kind of a tool: a data tool invokes the Tool Registry, a handoff tool
carries the target agent name instead. -/
inductive ToolKind where
  | data
  | handoff (target : String)
deriving DecidableEq

/-- Error kinds of the orchestrator's fatal error taxonomy. -/
inductive ErrorKind where
  | unknownTool
  | unknownAgent
  | providerError
  | iterationLimitExceeded
deriving DecidableEq

/-- Events of the canonical turn event stream: a tagged union over
user_message, agent_updated, content_delta, tool_call, tool_result, error and
done, each carrying the originating agent name (except user_message) and its
kind-specific payload. -/
inductive Event where
  | user_message (content : String)
  | agent_updated (agent : String) (message : String)
  | content_delta (agent : String) (content : String)
  | tool_call (agent : String) (tool : String) (arguments : ToolArgs)
  | tool_result (agent : String) (tool : String) (result : String)
  | error (kind : ErrorKind) (message : String)
  | done (agent : String)
deriving DecidableEq

/-- Modelled from the spec: one materialized response of the Completion
Provider Adapter for one generate/dispatch cycle — text fragments optionally
followed by a fully-materialized tool-call request, a pure text completion, or
a ProviderError. The provider backend is an external collaborator, so its
per-iteration behavior is an input of the orchestrator model. -/
inductive ProviderStep where
  | completion (fragments : List String)
  | toolCall (fragments : List String) (tool : String) (args : ToolArgs)
  | failure (message : String)
deriving DecidableEq

/-- Look an agent up by name in the static agent map. -/
def findAgent (agents : List AgentDefinition) (name : String) : Option AgentDefinition :=
  agents.find? (fun a => a.name == name)

/-- Render a Tool Registry outcome to the tool_result payload string; a
recoverable tool failure is reported as a failure entry, not as a fatal
event. -/
def renderOutcome (r : Except ToolError ToolResult) : String :=
  match r with
  | Except.ok ToolResult.saved => "saved"
  | Except.ok (ToolResult.note c) => c
  | Except.ok (ToolResult.titles ts) => String.intercalate ", " ts
  | Except.error (ToolError.validationError m) => "validation error: " ++ m
  | Except.error (ToolError.notFoundError m) => "not found: " ++ m

/-- Fixed iteration ceiling of the turn loop. -/
def ceiling : Nat := 10

/-- Modelled from the spec: the iterate-generate-dispatch loop of the Turn
Orchestrator (api/app/agents/orchestrator.py, missing from the source tree),
driven by the remaining iteration budget `fuel` (iteration count =
ceiling - fuel). Each pass consumes one provider step: a pure completion ends
the turn with done; a provider failure ends it with error then done; a tool
call is checked against the current agent's permitted tools (unknown_tool
fault otherwise), then dispatched as a handoff (swap current agent, emit
agent_updated, continue) or as a data tool (invoke the Tool Registry, emit
tool_call and tool_result, continue). Exhausted fuel ends the turn with
error iteration_limit_exceeded then done. -/
def loop (toolKind : String → Option ToolKind) (agents : List AgentDefinition)
    (current : AgentDefinition) (store : NoteStore)
    (stream : Nat → ProviderStep) : Nat → List Event
  | 0 => [Event.error ErrorKind.iterationLimitExceeded "iteration limit exceeded",
          Event.done current.name]
  | fuel + 1 =>
    match stream 0 with
    | ProviderStep.failure msg =>
        [Event.error ErrorKind.providerError msg, Event.done current.name]
    | ProviderStep.completion frags =>
        frags.map (Event.content_delta current.name) ++ [Event.done current.name]
    | ProviderStep.toolCall frags tool args =>
        let deltas := frags.map (Event.content_delta current.name)
        if tool ∈ current.tools then
          match toolKind tool with
          | some (ToolKind.handoff target) =>
            match findAgent agents target with
            | some next =>
                deltas ++ [Event.tool_call current.name tool args,
                           Event.agent_updated next.name ("handoff to " ++ next.name)]
                ++ loop toolKind agents next store (fun k => stream (k + 1)) fuel
            | none =>
                deltas ++ [Event.error ErrorKind.unknownAgent ("unknown agent " ++ target),
                           Event.done current.name]
          | some ToolKind.data =>
            let out := invoke store tool args
            deltas ++ [Event.tool_call current.name tool args,
                       Event.tool_result current.name tool (renderOutcome out.1)]
            ++ loop toolKind agents current out.2 (fun k => stream (k + 1)) fuel
          | none =>
            deltas ++ [Event.error ErrorKind.unknownTool ("unknown tool " ++ tool),
                       Event.done current.name]
        else
          deltas ++ [Event.error ErrorKind.unknownTool ("unknown tool " ++ tool),
                     Event.done current.name]

/-- Modelled from the spec: the public orchestrator contract
`run_turn(session_id, user_message) → lazy sequence of Event, terminating`
(api/app/agents/orchestrator.py, missing from the source tree): emit
user_message, then run the loop from the entry agent with the full iteration
budget. -/
def run_turn (toolKind : String → Option ToolKind) (agents : List AgentDefinition)
    (entry : AgentDefinition) (stream : Nat → ProviderStep)
    (store : NoteStore) (userMsg : String) : List Event :=
  Event.user_message userMsg :: loop toolKind agents entry store stream ceiling

/-- Predicate picking out done events. -/
def isDone : Event → Bool
  | Event.done _ => true
  | _ => false

/-- Predicate picking out agent_updated events. -/
def isAgentUpdated : Event → Bool
  | Event.agent_updated _ _ => true
  | _ => false

/-- Predicate picking out tool_result events. -/
def isToolResult : Event → Bool
  | Event.tool_result _ _ _ => true
  | _ => false

/-- Predicate picking out error events. -/
def isError : Event → Bool
  | Event.error _ _ => true
  | _ => false

/-! ### Turn termination lemmas -/

lemma loop_done_decomp (tk : String → Option ToolKind) (agents : List AgentDefinition) :
    ∀ (fuel : Nat) (current : AgentDefinition) (store : NoteStore)
      (stream : Nat → ProviderStep),
      ∃ pre a, loop tk agents current store stream fuel = pre ++ [Event.done a] ∧
        ∀ e ∈ pre, isDone e = false := by
  intro fuel
  induction fuel with
  | zero =>
    intro current store stream
    refine ⟨[Event.error ErrorKind.iterationLimitExceeded "iteration limit exceeded"],
      current.name, rfl, ?_⟩
    intro e he
    simp only [List.mem_singleton] at he
    subst he
    rfl
  | succ fuel ih =>
    intro current store stream
    cases hs : stream 0 with
    | completion frags =>
      refine ⟨frags.map (Event.content_delta current.name), current.name, ?_, ?_⟩
      · simp [loop, hs]
      · intro e he
        simp only [List.mem_map] at he
        obtain ⟨s, _, rfl⟩ := he
        rfl
    | failure msg =>
      refine ⟨[Event.error ErrorKind.providerError msg], current.name, ?_, ?_⟩
      · simp [loop, hs]
      · intro e he
        simp only [List.mem_singleton] at he
        subst he
        rfl
    | toolCall frags tool args =>
      by_cases htool : tool ∈ current.tools
      · cases hk : tk tool with
        | none =>
          refine ⟨frags.map (Event.content_delta current.name)
              ++ [Event.error ErrorKind.unknownTool ("unknown tool " ++ tool)],
            current.name, ?_, ?_⟩
          · simp [loop, hs, htool, hk]
          · intro e he
            simp only [List.mem_append, List.mem_map, List.mem_singleton] at he
            rcases he with ⟨s, _, rfl⟩ | rfl <;> rfl
        | some k =>
          cases k with
          | data =>
            obtain ⟨pre, a, hdec, hpre⟩ :=
              ih current (invoke store tool args).2 (fun k => stream (k + 1))
            refine ⟨frags.map (Event.content_delta current.name)
                ++ [Event.tool_call current.name tool args,
                    Event.tool_result current.name tool
                      (renderOutcome (invoke store tool args).1)]
                ++ pre, a, ?_, ?_⟩
            · simp [loop, hs, htool, hk, hdec, List.append_assoc]
            · intro e he
              rcases List.mem_append.mp he with h12 | hep
              · rcases List.mem_append.mp h12 with hd | hx
                · obtain ⟨s, -, rfl⟩ := List.mem_map.mp hd
                  rfl
                · rcases List.mem_cons.mp hx with rfl | hx
                  · rfl
                  · rcases List.mem_cons.mp hx with rfl | hx
                    · rfl
                    · exact absurd hx (List.not_mem_nil e)
              · exact hpre e hep
          | handoff target =>
            cases hf : findAgent agents target with
            | some next =>
              obtain ⟨pre, a, hdec, hpre⟩ := ih next store (fun k => stream (k + 1))
              refine ⟨frags.map (Event.content_delta current.name)
                  ++ [Event.tool_call current.name tool args,
                      Event.agent_updated next.name ("handoff to " ++ next.name)]
                  ++ pre, a, ?_, ?_⟩
              · simp [loop, hs, htool, hk, hf, hdec, List.append_assoc]
              · intro e he
                rcases List.mem_append.mp he with h12 | hep
                · rcases List.mem_append.mp h12 with hd | hx
                  · obtain ⟨s, -, rfl⟩ := List.mem_map.mp hd
                    rfl
                  · rcases List.mem_cons.mp hx with rfl | hx
                    · rfl
                    · rcases List.mem_cons.mp hx with rfl | hx
                      · rfl
                      · exact absurd hx (List.not_mem_nil e)
                · exact hpre e hep
            | none =>
              refine ⟨frags.map (Event.content_delta current.name)
                  ++ [Event.error ErrorKind.unknownAgent ("unknown agent " ++ target)],
                current.name, ?_, ?_⟩
              · simp [loop, hs, htool, hk, hf]
              · intro e he
                simp only [List.mem_append, List.mem_map, List.mem_singleton] at he
                rcases he with ⟨s, _, rfl⟩ | rfl <;> rfl
      · refine ⟨frags.map (Event.content_delta current.name)
            ++ [Event.error ErrorKind.unknownTool ("unknown tool " ++ tool)],
          current.name, ?_, ?_⟩
        · simp [loop, hs, htool]
        · intro e he
          simp only [List.mem_append, List.mem_map, List.mem_singleton] at he
          rcases he with ⟨s, _, rfl⟩ | rfl <;> rfl

/-- Claim C1: every turn produced by run_turn emits exactly one done event,
it is the last event of the returned sequence, and this holds whatever the
provider does (pure completions, tool calls, handoffs, faults, provider
failures) — run_turn is a total function, so the turn always terminates with
this terminal event. -/
theorem c1_done_is_terminal (tk : String → Option ToolKind)
    (agents : List AgentDefinition) (entry : AgentDefinition)
    (stream : Nat → ProviderStep) (store : NoteStore) (msg : String) :
    (run_turn tk agents entry stream store msg).countP isDone = 1 ∧
    ∃ a, (run_turn tk agents entry stream store msg).getLast?
        = some (Event.done a) := by
  obtain ⟨pre, a, hdec, hpre⟩ := loop_done_decomp tk agents ceiling entry store stream
  have hzero : pre.countP isDone = 0 := by
    refine List.countP_eq_zero.mpr ?_
    intro e he
    simp [hpre e he]
  constructor
  · simp [run_turn, hdec, List.countP_cons, List.countP_append, hzero, isDone]
  · refine ⟨a, ?_⟩
    have : Event.user_message msg :: (pre ++ [Event.done a])
        = (Event.user_message msg :: pre) ++ [Event.done a] := by
      simp
    rw [run_turn, hdec, this]
    exact List.getLast?_concat _

/-! ### Handoff-forever turns hit the iteration ceiling -/

/-- Target agent of a provider step when the step is a handoff the given
agent is authorized for (the tool is in its tools list, resolves to a handoff
kind, and the target agent exists); none otherwise. -/
def handoffTarget (tk : String → Option ToolKind) (agents : List AgentDefinition)
    (a : AgentDefinition) (step : ProviderStep) : Option AgentDefinition :=
  match step with
  | ProviderStep.toolCall _ tool _ =>
      if tool ∈ a.tools then
        match tk tool with
        | some (ToolKind.handoff target) => findAgent agents target
        | _ => none
      else none
  | _ => none

/-- Decides that starting from agent `a`, the next `fuel` provider steps are
all honored handoffs (the agent never completes, never calls a data tool,
never faults): each step is an authorized handoff and the check continues from
the target agent on the shifted stream. -/
def handoffStream (tk : String → Option ToolKind) (agents : List AgentDefinition) :
    AgentDefinition → (Nat → ProviderStep) → Nat → Bool
  | _, _, 0 => true
  | a, s, fuel + 1 =>
      match handoffTarget tk agents a (s 0) with
      | some next => handoffStream tk agents next (fun k => s (k + 1)) fuel
      | none => false

lemma loop_handoff_limit (tk : String → Option ToolKind) (agents : List AgentDefinition) :
    ∀ (fuel : Nat) (current : AgentDefinition) (store : NoteStore)
      (stream : Nat → ProviderStep),
      handoffStream tk agents current stream fuel = true →
      ∃ pre a, loop tk agents current store stream fuel
          = pre ++ [Event.error ErrorKind.iterationLimitExceeded "iteration limit exceeded",
                    Event.done a] ∧
        pre.countP isAgentUpdated = fuel := by
  intro fuel
  induction fuel with
  | zero =>
    intro current store stream _
    exact ⟨[], current.name, rfl, rfl⟩
  | succ fuel ih =>
    intro current store stream h
    cases hs : stream 0 with
    | completion frags =>
      rw [handoffStream, hs] at h
      simp [handoffTarget] at h
    | failure msg =>
      rw [handoffStream, hs] at h
      simp [handoffTarget] at h
    | toolCall frags tool args =>
      rw [handoffStream, hs] at h
      by_cases htool : tool ∈ current.tools
      · cases hk : tk tool with
        | none =>
          rw [handoffTarget] at h
          simp [htool, hk] at h
        | some k =>
          cases k with
          | data =>
            rw [handoffTarget] at h
            simp [htool, hk] at h
          | handoff target =>
            cases hf : findAgent agents target with
            | none =>
              rw [handoffTarget] at h
              simp [htool, hk, hf] at h
            | some next =>
              rw [handoffTarget] at h
              simp only [htool, if_pos, hk, hf] at h
              obtain ⟨pre, a, hdec, hcount⟩ := ih next store (fun k => stream (k + 1)) h
              refine ⟨frags.map (Event.content_delta current.name)
                  ++ [Event.tool_call current.name tool args,
                      Event.agent_updated next.name ("handoff to " ++ next.name)]
                  ++ pre, a, ?_, ?_⟩
              · simp [loop, hs, htool, hk, hf, hdec, List.append_assoc]
              · have hmap : (frags.map (Event.content_delta current.name)).countP
                    isAgentUpdated = 0 := by
                  refine List.countP_eq_zero.mpr ?_
                  intro e he
                  obtain ⟨s, -, rfl⟩ := List.mem_map.mp he
                  simp [isAgentUpdated]
                simp [List.countP_append, List.countP_cons, hmap, hcount,
                  isAgentUpdated, Nat.add_comm]
      · rw [handoffTarget] at h
        simp [htool] at h

/-- Claim C2: a turn whose current agent keeps issuing honored handoffs
without ever completing consumes all 10 iterations of the fixed ceiling —
the stream carries exactly 10 agent_updated events — and the turn terminates
with an error event of kind iteration_limit_exceeded followed by done
(run_turn is a total function, so the turn never hangs). -/
theorem c2_handoff_iteration_limit (tk : String → Option ToolKind)
    (agents : List AgentDefinition) (entry : AgentDefinition)
    (stream : Nat → ProviderStep) (store : NoteStore) (msg : String)
    (h : handoffStream tk agents entry stream ceiling = true) :
    (∃ pre a, run_turn tk agents entry stream store msg
        = pre ++ [Event.error ErrorKind.iterationLimitExceeded "iteration limit exceeded",
                  Event.done a]) ∧
    (run_turn tk agents entry stream store msg).countP isAgentUpdated = 10 := by
  obtain ⟨pre, a, hdec, hcount⟩ := loop_handoff_limit tk agents ceiling entry store stream h
  constructor
  · exact ⟨Event.user_message msg :: pre, a, by simp [run_turn, hdec]⟩
  · rw [run_turn, hdec, List.countP_cons, List.countP_append]
    have hc : pre.countP isAgentUpdated = 10 := hcount
    simp [hc, isAgentUpdated, List.countP_cons]

/-! ### The repository's concrete agent roster -/

/-- Modelled from the spec: the repository's static agent definition set
(api/app/agents/orchestrator.py is missing from the source tree) — the
front-facing Concierge agent, permitted only the handoff to the Archivist. -/
def concierge : AgentDefinition :=
  { name := "concierge"
  , instructions := "Front-facing agent for general queries"
  , tools := ["handoff_to_archivist"] }

/-- Modelled from the spec: the Archivist specialist agent, permitted the
three note tools and the handoff back to the Concierge. -/
def archivist : AgentDefinition :=
  { name := "archivist"
  , instructions := "Specialist agent for note management"
  , tools := ["save_note", "get_note", "list_titles", "handoff_to_concierge"] }

/-- Modelled from the spec: the static agent map, validated once at
startup. -/
def roster : List AgentDefinition := [concierge, archivist]

/-- Modelled from the spec: the repository's global tool table — three data
tools backed by the Tool Registry and one handoff pseudo-tool per agent
direction. -/
def repoToolKind (tool : String) : Option ToolKind :=
  if tool = "save_note" ∨ tool = "get_note" ∨ tool = "list_titles" then
    some ToolKind.data
  else if tool = "handoff_to_archivist" then some (ToolKind.handoff "archivist")
  else if tool = "handoff_to_concierge" then some (ToolKind.handoff "concierge")
  else none

/-- Provider that alternates the two handoff tools forever, starting from the
Concierge: the canonical never-completing turn. -/
def pingPongStream (i : Nat) : ProviderStep :=
  ProviderStep.toolCall []
    (if i % 2 = 0 then "handoff_to_archivist" else "handoff_to_concierge") []

/-- Witness for C2: the alternating handoff turn on the concrete roster hits
the ceiling with exactly 10 agent_updated events and ends with the
iteration_limit_exceeded error followed by done. -/
theorem c2_handoff_iteration_limit_witness :
    (∃ pre a, run_turn repoToolKind roster concierge pingPongStream [] "hi"
        = pre ++ [Event.error ErrorKind.iterationLimitExceeded "iteration limit exceeded",
                  Event.done a]) ∧
    (run_turn repoToolKind roster concierge pingPongStream [] "hi").countP
        isAgentUpdated = 10 :=
  c2_handoff_iteration_limit repoToolKind roster concierge pingPongStream [] "hi"
    (by decide)

/-- Claim C6: from the iteration at which the current agent issues a tool
call naming a tool not in its own tools list (in particular an unauthorized
handoff), the turn emits the pending text fragments and then exactly one
error event of kind unknown_tool followed by done: no tool_result is emitted
for the call, no agent_updated is emitted (the handoff is never performed),
and the turn ends. -/
theorem c6_unauthorized_tool_faults (tk : String → Option ToolKind)
    (agents : List AgentDefinition) (current : AgentDefinition)
    (store : NoteStore) (stream : Nat → ProviderStep) (fuel : Nat)
    (frags : List String) (tool : String) (args : ToolArgs)
    (hs : stream 0 = ProviderStep.toolCall frags tool args)
    (htool : tool ∉ current.tools) :
    loop tk agents current store stream (fuel + 1)
      = frags.map (Event.content_delta current.name)
        ++ [Event.error ErrorKind.unknownTool ("unknown tool " ++ tool),
            Event.done current.name] ∧
    (loop tk agents current store stream (fuel + 1)).countP isError = 1 ∧
    (loop tk agents current store stream (fuel + 1)).countP isToolResult = 0 ∧
    (loop tk agents current store stream (fuel + 1)).countP isAgentUpdated = 0 := by
  have hdec : loop tk agents current store stream (fuel + 1)
      = frags.map (Event.content_delta current.name)
        ++ [Event.error ErrorKind.unknownTool ("unknown tool " ++ tool),
            Event.done current.name] := by
    simp [loop, hs, htool]
  have hmap : ∀ p : Event → Bool,
      (∀ ag c, p (Event.content_delta ag c) = false) →
      (frags.map (Event.content_delta current.name)).countP p = 0 := by
    intro p hp
    refine List.countP_eq_zero.mpr ?_
    intro e he
    obtain ⟨s, -, rfl⟩ := List.mem_map.mp he
    simp [hp]
  have h1 := hmap isError (fun _ _ => rfl)
  have h2 := hmap isToolResult (fun _ _ => rfl)
  have h3 := hmap isAgentUpdated (fun _ _ => rfl)
  refine ⟨hdec, ?_, ?_, ?_⟩ <;>
    rw [hdec] <;>
    simp [List.countP_append, List.countP_cons, h1, h2, h3,
      isError, isToolResult, isAgentUpdated]

/-- Provider in which the Concierge immediately calls save_note, a tool it is
not permitted to use. -/
def unauthorizedStream (_ : Nat) : ProviderStep :=
  ProviderStep.toolCall [] "save_note" [("title", "t"), ("content", "c")]

/-- Witness for C6: the Concierge calling save_note (not in its tools list)
yields exactly the unknown_tool error followed by done, with no tool_result
and no agent_updated. -/
theorem c6_unauthorized_tool_faults_witness :
    loop repoToolKind roster concierge [] unauthorizedStream 10
      = [Event.error ErrorKind.unknownTool ("unknown tool " ++ "save_note"),
         Event.done concierge.name] ∧
    (loop repoToolKind roster concierge [] unauthorizedStream 10).countP isError = 1 ∧
    (loop repoToolKind roster concierge [] unauthorizedStream 10).countP isToolResult = 0 ∧
    (loop repoToolKind roster concierge [] unauthorizedStream 10).countP isAgentUpdated = 0 :=
  c6_unauthorized_tool_faults repoToolKind roster concierge [] unauthorizedStream 9
    [] "save_note" [("title", "t"), ("content", "c")] rfl (by decide)

/-! ## Web frontend: ChatPage SSE stream consumer
Embedded from web/src/pages/ChatPage.tsx (handleSubmit, stream-reading loop).
JSON.parse is a browser builtin (external collaborator) and is passed in as a
fallible `parse` function; a parse exception is `none` and is caught by the
handler, which only logs and continues. Date.now() is modelled by the fresh-id
counter `nextId`; its exact values never influence control flow beyond
distinctness. -/

/-- Character-list prefix test, modelling JavaScript String.startsWith (a
platform builtin), written structurally so it evaluates by kernel
reduction. -/
def charsStartWith : List Char → List Char → Bool
  | _, [] => true
  | [], _ :: _ => false
  | c :: cs, d :: ds => c == d && charsStartWith cs ds

/-- Test whether `s` starts with `p`, modelling JavaScript
String.startsWith. -/
def jsStartsWith (s p : String) : Bool :=
  charsStartWith s.data p.data

/-- Removal of leading and trailing whitespace, modelling JavaScript
String.trim. -/
def jsTrim (s : String) : String :=
  ⟨((s.data.dropWhile Char.isWhitespace).reverse.dropWhile Char.isWhitespace).reverse⟩

/-- Drop of the first `n` characters, modelling JavaScript String.slice with
a nonnegative start index. -/
def jsSlice (s : String) (n : Nat) : String :=
  ⟨s.data.drop n⟩

/-- Chat message record of the UI (web/src/types.ts shape used by
ChatPage). -/
structure ChatMessage where
  id : String
  role : String
  content : String
  agent : Option String
deriving DecidableEq

/-- Parsed JSON payload of one SSE data line: a flat object with string
fields (agent, content, tool, error, message are the fields the handler
reads). -/
structure JsonObj where
  fields : List (String × String)
deriving DecidableEq

/-- Field access on a parsed payload; a missing field is JavaScript
`undefined`. -/
def JsonObj.get (o : JsonObj) (k : String) : Option String :=
  o.fields.lookup k

/-- Local state of the handleSubmit stream loop: the rendered message list,
the current agent label, the in-progress assistant message, whether it has
been added to the list, and the current SSE event type. -/
structure ChatState where
  messages : List ChatMessage
  currentAgent : String
  currentMessage : ChatMessage
  messageAdded : Bool
  currentEventType : String
  nextId : Nat
deriving DecidableEq

/-- State at the start of the stream loop (messages of the current turn only;
currentAgent starts as "concierge" per the useState initializer). -/
def initChatState : ChatState :=
  { messages := []
  , currentAgent := "concierge"
  , currentMessage := { id := "1", role := "assistant", content := "", agent := some "concierge" }
  , messageAdded := false
  , currentEventType := ""
  , nextId := 2 }

/-- Fresh message id: Date.now().toString() plus a suffix, with Date.now()
modelled by the counter. -/
def freshId (s : ChatState) (suffix : String) : String :=
  toString s.nextId ++ suffix

/-- Processing of one line of the SSE chunk, translated from the
`for (const line of lines)` body of ChatPage.tsx (lines 74-153): skip blank
lines, record the event type of an `event: ` line, decode a `data: ` line
according to the current event type, ignore anything else; a JSON parse
failure is caught and the line is skipped. -/
def processLine (parse : String → Option JsonObj) (s : ChatState) (line : String) :
    ChatState :=
  if jsTrim line = "" then s
  else if jsStartsWith line "event: " then
    { s with currentEventType := jsTrim (jsSlice line 7) }
  else if jsStartsWith line "data: " then
    match parse (jsSlice line 6) with
    | none => s
    | some obj =>
      if s.currentEventType = "delta" then
        let msg := { s.currentMessage with
                     content := s.currentMessage.content ++ (obj.get "content").getD "undefined"
                     agent := obj.get "agent" }
        if s.messageAdded = false then
          { s with messages := s.messages ++ [msg], currentMessage := msg,
                   messageAdded := true }
        else
          { s with messages := s.messages.map (fun m => if m.id = msg.id then msg else m),
                   currentMessage := msg }
      else if s.currentEventType = "agent_handoff" then
        let agent := (obj.get "agent").getD "undefined"
        let handoffMsg : ChatMessage :=
          { id := freshId s "-handoff", role := "system", content := "→ " ++ agent,
            agent := none }
        { s with messages := s.messages ++ [handoffMsg]
               , currentAgent := agent
               , currentMessage :=
                   { id := freshId s "-new", role := "assistant", content := "",
                     agent := obj.get "agent" }
               , messageAdded := false
               , nextId := s.nextId + 1 }
      else if s.currentEventType = "tool_call" then
        { s with messages := s.messages
              ++ [{ id := freshId s "-tool", role := "system",
                    content := (obj.get "tool").getD "undefined" ++ "()", agent := none }]
               , nextId := s.nextId + 1 }
      else if s.currentEventType = "tool_result" then s
      else if s.currentEventType = "error" then
        { s with messages := s.messages
              ++ [{ id := freshId s "-error", role := "system",
                    content := "Error: " ++ (obj.get "error").getD "undefined",
                    agent := none }]
               , nextId := s.nextId + 1 }
      else s
  else s

/-- Processing of a sequence of SSE lines in order. -/
def processLines (parse : String → Option JsonObj) (s : ChatState)
    (lines : List String) : ChatState :=
  lines.foldl (processLine parse) s

/-- Run of the stream consumer from the initial state. -/
def uiRun (parse : String → Option JsonObj) (lines : List String) : ChatState :=
  processLines parse initChatState lines

/-- Modelled from the spec: the Event Stream Encoder's wire kind tag per
event, exactly the kind column of the outbound-wire-events table of the spec
(the encoder source api/app/routers/chatkit.py is missing from the source
tree). -/
def wireKind : Event → String
  | Event.user_message _ => "user_message"
  | Event.agent_updated _ _ => "agent_updated"
  | Event.content_delta _ _ => "content_delta"
  | Event.tool_call _ _ _ => "tool_call"
  | Event.tool_result _ _ _ => "tool_result"
  | Event.error _ _ => "error"
  | Event.done _ => "done"

/-- Concrete parse function: every data payload decodes to an object carrying
agent, content and message fields (models JSON.parse on such a payload). -/
def c4Parse : String → Option JsonObj :=
  fun _ => some ⟨[("agent", "archivist"), ("content", "hi"), ("message", "m")]⟩

/-- Counterexample to claim C4: the spec's wire tags content_delta and
agent_updated are not the kind tags the UI stream consumer decodes. An SSE
event line tagged with wireKind of a content_delta event followed by a data
line changes nothing (no text fragment is appended), and the agent_updated
tag changes neither the current agent nor the messages — while the tags the
UI actually decodes for these two events are "delta" and "agent_handoff". -/
theorem c4_wire_tags_counterexample :
    (uiRun c4Parse ["event: " ++ wireKind (Event.content_delta "archivist" "hi"),
        "data: p"]).messages = [] ∧
    (uiRun c4Parse ["event: " ++ wireKind (Event.agent_updated "archivist" "m"),
        "data: p"]).currentAgent = "concierge" ∧
    (uiRun c4Parse ["event: " ++ wireKind (Event.agent_updated "archivist" "m"),
        "data: p"]).messages = [] ∧
    (uiRun c4Parse ["event: delta", "data: p"]).messages ≠ [] ∧
    (uiRun c4Parse ["event: agent_handoff", "data: p"]).currentAgent = "archivist" := by
  decide

/-- Parametric parse function: the data payload decodes to an object with the
given agent and content fields. -/
def c4DeltaParse (agent content : String) : String → Option JsonObj :=
  fun _ => some ⟨[("agent", agent), ("content", content)]⟩

/-- Amended claim C4: the kind tags the UI stream consumer decodes for the
two events are "delta" (payload fields agent and content, appended as a text
fragment of the current assistant message) and "agent_handoff" (payload field
agent, which becomes the new current agent and is shown as a handoff system
message). -/
theorem c4_ui_decodes_delta_and_agent_handoff (agent content : String) :
    (uiRun (c4DeltaParse agent content) ["event: delta", "data: p"]).messages
      = [{ id := "1", role := "assistant", content := content, agent := some agent }] ∧
    (uiRun (c4DeltaParse agent content)
        ["event: agent_handoff", "data: p"]).currentAgent = agent ∧
    (uiRun (c4DeltaParse agent content) ["event: agent_handoff", "data: p"]).messages
      = [{ id := "2-handoff", role := "system", content := "→ " ++ agent,
           agent := none }] := by
  have h2 : toString (2 : Nat) ++ "-handoff" = "2-handoff" := rfl
  refine ⟨rfl, rfl, ?_⟩
  simp [uiRun, processLines, processLine, initChatState, freshId, jsTrim, jsSlice,
    jsStartsWith, charsStartWith, c4DeltaParse, JsonObj.get, h2]

/-- Claim C10: for every line of the chat SSE stream, blank lines and lines
lacking both the event and the data prefix are skipped without changing any
state; a data line whose payload fails JSON parsing (parse returns none,
matching the caught JSON.parse exception) changes no state — in particular
appends no chat message — and does not stop processing of the subsequent
lines. -/
theorem c10_sse_line_robustness (parse : String → Option JsonObj)
    (s : ChatState) (line : String) :
    (jsTrim line = "" → processLine parse s line = s) ∧
    (jsStartsWith line "event: " = false → jsStartsWith line "data: " = false →
      processLine parse s line = s) ∧
    (jsStartsWith line "event: " = false → parse (jsSlice line 6) = none →
      processLine parse s line = s) ∧
    (∀ rest : List String, jsStartsWith line "event: " = false →
      parse (jsSlice line 6) = none →
      processLines parse s (line :: rest) = processLines parse s rest) := by
  have h3 : jsStartsWith line "event: " = false → parse (jsSlice line 6) = none →
      processLine parse s line = s := by
    intro h1 h2
    unfold processLine
    by_cases ht : jsTrim line = ""
    · simp [ht]
    · by_cases hd : jsStartsWith line "data: "
      · simp [ht, h1, hd, h2]
      · simp [ht, h1, hd]
  refine ⟨?_, ?_, h3, ?_⟩
  · intro h
    simp [processLine, h]
  · intro h1 h2
    unfold processLine
    by_cases ht : jsTrim line = ""
    · simp [ht]
    · simp [ht, h1, h2]
  · intro rest h1 h2
    simp [processLines, List.foldl_cons, h3 h1 h2]

/-- Witness for C10: a concrete data line with an unparseable payload leaves
the initial state unchanged and the following done event is still
processed. -/
theorem c10_sse_line_robustness_witness :
    processLine (fun _ => none) initChatState "data: notjson" = initChatState ∧
    processLines (fun _ => none) initChatState ["data: notjson", "event: done"]
      = processLines (fun _ => none) initChatState ["event: done"] :=
  ⟨((c10_sse_line_robustness (fun _ => none) initChatState "data: notjson").2.2.1
      (by decide) rfl),
   ((c10_sse_line_robustness (fun _ => none) initChatState "data: notjson").2.2.2
      ["event: done"] (by decide) rfl)⟩

/-! ## Web frontend: route guards and auth state
Embedded from web/src/App.tsx and web/src/hooks/useAuth.ts. -/

/-- Rendering outcome of the App route table: a page component, the loading
view shown while the auth check runs, a Navigate redirect, or no matching
route. -/
inductive AppView where
  | loadingView
  | loginPage
  | settingsPage
  | chatPage
  | redirect (target : String)
  | noMatch
deriving DecidableEq

/-- Route rendering of App.tsx: the loading gate, then the four routes with
their guards — /settings requires isAuthenticated, /chat requires
isAuthenticated and hasApiKey with a fallback redirect to /login when
unauthenticated and to /settings when only the API key is missing, and /
redirects to /login. -/
def appRender (isLoading isAuthenticated hasApiKey : Bool) (path : String) : AppView :=
  if isLoading then AppView.loadingView
  else if path = "/login" then AppView.loginPage
  else if path = "/settings" then
    (if isAuthenticated then AppView.settingsPage else AppView.redirect "/login")
  else if path = "/chat" then
    (if isAuthenticated && hasApiKey then AppView.chatPage
     else if !isAuthenticated then AppView.redirect "/login"
     else AppView.redirect "/settings")
  else if path = "/" then AppView.redirect "/login"
  else AppView.noMatch

/-- Claim C8: once the auth check has completed (isLoading is false), /chat
renders ChatPage exactly when isAuthenticated and hasApiKey are both true;
when isAuthenticated is false both /chat and /settings redirect to /login;
when isAuthenticated is true but hasApiKey is false, /chat redirects to
/settings. -/
theorem c8_route_guards (a k : Bool) :
    (appRender false a k "/chat" = AppView.chatPage ↔ a = true ∧ k = true) ∧
    (a = false → appRender false a k "/chat" = AppView.redirect "/login" ∧
      appRender false a k "/settings" = AppView.redirect "/login") ∧
    (a = true → k = false → appRender false a k "/chat" = AppView.redirect "/settings") := by
  cases a <;> cases k <;> decide

/-- Witness for C8: an unauthenticated visit to /chat redirects to /login,
and an authenticated visit without an API key redirects to /settings. -/
theorem c8_route_guards_witness :
    appRender false false false "/chat" = AppView.redirect "/login" ∧
    appRender false true false "/chat" = AppView.redirect "/settings" :=
  ⟨((c8_route_guards false false).2.1 rfl).1,
   (c8_route_guards true false).2.2 rfl rfl⟩

/-- Outcome of the checkAuth fetch to /session-status: an ok response with
the parsed SessionStatus flags, a non-ok HTTP response, or a thrown
exception (network failure or a json parse failure inside the try block). -/
inductive AuthResponse where
  | ok (passcodeVerified apiKeySet : Bool)
  | httpError
  | thrown
deriving DecidableEq

/-- Auth state exposed by the useAuth hook after checkAuth completes. -/
structure AuthState where
  isAuthenticated : Bool
  hasApiKey : Bool
  isLoading : Bool
deriving DecidableEq

/-- Embedding of checkAuth (useAuth in web/src/hooks/useAuth.ts): an ok
response installs the returned flags; a non-ok response or a thrown error
sets both flags to false; the finally block always clears isLoading. -/
def checkAuth (r : AuthResponse) : AuthState :=
  match r with
  | AuthResponse.ok p k => { isAuthenticated := p, hasApiKey := k, isLoading := false }
  | AuthResponse.httpError => { isAuthenticated := false, hasApiKey := false, isLoading := false }
  | AuthResponse.thrown => { isAuthenticated := false, hasApiKey := false, isLoading := false }

/-- Claim C9: whenever the /session-status request returns a non-ok response
or throws, checkAuth sets both isAuthenticated and hasApiKey to false (fails
closed, never granting access on error), and in every case isLoading is false
once checkAuth completes. -/
theorem c9_auth_fails_closed :
    (∀ r : AuthResponse, r = AuthResponse.httpError ∨ r = AuthResponse.thrown →
      (checkAuth r).isAuthenticated = false ∧ (checkAuth r).hasApiKey = false) ∧
    (∀ r : AuthResponse, (checkAuth r).isLoading = false) := by
  constructor
  · rintro r (rfl | rfl) <;> exact ⟨rfl, rfl⟩
  · intro r
    cases r <;> rfl

/-- Witness for C9: the non-ok HTTP response yields the fully-denied,
non-loading state. -/
theorem c9_auth_fails_closed_witness :
    (checkAuth AuthResponse.httpError).isAuthenticated = false ∧
    (checkAuth AuthResponse.httpError).hasApiKey = false :=
  c9_auth_fails_closed.1 AuthResponse.httpError (Or.inl rfl)
